import Mathlib

/-!
Verification of the Xiaomi fingerprint driver core against its
natural-language specification.

The C sources are shallowly embedded: each C function that a claim
depends on becomes an executable Lean definition over explicit state
records; external effects (the USB stack, the kernel ioctl layer, the
missing helper routines that `fp_xiaomi_recovery.c` calls) are passed
in as oracle parameters carrying the value the external call would
have returned.
-/

namespace FpXiaomi

/-! ### Errno constants (Linux errno values, returned negated by the driver) -/

def EINVAL : Int := 22
def EBUSY : Int := 16
def ENODEV : Int := 19
def EIO' : Int := 5
def ECOMM : Int := 70
def ETIMEDOUT : Int := 110
def EPIPE : Int := 32
def EFAULT : Int := 14

/-! ### Device states (`fp_xiaomi_driver.h` lines 202-208) -/

def FP_STATE_DISCONNECTED : Nat := 0
def FP_STATE_INITIALIZING : Nat := 1
def FP_STATE_READY : Nat := 2
def FP_STATE_CAPTURING : Nat := 3
def FP_STATE_PROCESSING : Nat := 4
def FP_STATE_ERROR : Nat := 5
def FP_STATE_SUSPENDED : Nat := 6

/-- `FP_STATE_UNINITIALIZED` is referenced by `fp_state_recovery` in
`fp_xiaomi_recovery.c` but never defined in the repository's headers;
its concrete value is irrelevant to every claim, we give it a value
distinct from the seven declared states. -/
def FP_STATE_UNINITIALIZED : Nat := 7

/-! ### Driver constants (`fp_xiaomi_driver.c` lines 50-52, header lines 23-25) -/

def FP_XIAOMI_BUFFER_SIZE : Nat := 4096
def FP_XIAOMI_TIMEOUT_MS : Nat := 5000
def FP_XIAOMI_RETRY_COUNT : Nat := 3
def FP_XIAOMI_MAX_TEMPLATES : Nat := 10

/-! ### Library constants (`fp_xiaomi_driver.h` lines 224, 230) -/

def FP_QUALITY_MEDIUM : Nat := 50
def FP_TIMEOUT_DEFAULT : Nat := 5000

/-! ### Library error codes (`libfp_xiaomi.h` lines 35-50) -/

def FP_XIAOMI_SUCCESS : Int := 0
def FP_XIAOMI_ERROR_DEVICE : Int := -1
def FP_XIAOMI_ERROR_BUSY : Int := -9
def FP_XIAOMI_ERROR_MEMORY : Int := -10
def FP_XIAOMI_ERROR_INVALID_PARAM : Int := -11

/-! ### Device record for `fp_xiaomi_driver.c`

Fields of `struct fp_xiaomi_device` that the embedded functions touch.
`endpoint_halted` models the USB endpoint's halt condition that
`usb_clear_halt` clears; it lives in the USB core, not in the C struct,
but is observable behaviour the spec talks about. -/

structure DriverDevice where
  state : Nat
  last_activity : Nat
  error_count : Nat
  retry_count : Nat
  endpoint_halted : Bool
  deriving Repr, DecidableEq

/-- `fp_xiaomi_set_state` (`fp_xiaomi_driver.c` lines 238-254): takes the
state spinlock, records the new state and stamps `last_activity` with the
current `jiffies` value (passed here as `now`); the wake-ups of the read
and write wait queues have no effect on the modelled state. -/
def fp_xiaomi_set_state (dev : DriverDevice) (new_state : Nat) (now : Nat) :
    DriverDevice :=
  { dev with state := new_state, last_activity := now }

/-- `fp_xiaomi_get_state` (`fp_xiaomi_driver.c` lines 256-266). -/
def fp_xiaomi_get_state (dev : DriverDevice) : Nat :=
  dev.state

/-- Outcome of the `usb_bulk_msg` call inside `fp_xiaomi_bulk_transfer`:
either the USB core reports success with some `actual_length`, or it
reports a negative error code. -/
inductive UsbResult where
  | ok (actual_length : Int)
  | err (code : Int)
  deriving Repr, DecidableEq

/-- `fp_xiaomi_bulk_transfer` (`fp_xiaomi_driver.c` lines 271-329).
`bufValid` stands for the `buffer` pointer being non-NULL, `usb` is the
result of the `usb_bulk_msg` call, and `now` is the `jiffies` value read
when a state transition happens.  Returns the C return value together
with the updated device. -/
def fp_xiaomi_bulk_transfer (dev : DriverDevice) (bufValid : Bool)
    (length : Int) (is_write : Bool) (usb : UsbResult) (now : Nat) :
    Int × DriverDevice :=
  if ¬bufValid ∨ length ≤ 0 then
    (-EINVAL, dev)
  else if fp_xiaomi_get_state dev = FP_STATE_DISCONNECTED then
    (-ENODEV, dev)
  else
    match usb with
    | .err ret =>
      let dev := { dev with error_count := dev.error_count + 1 }
      if ret = -ETIMEDOUT then
        (ret, dev)
      else if ret = -ENODEV then
        (ret, fp_xiaomi_set_state dev FP_STATE_DISCONNECTED now)
      else if ret = -EPIPE then
        (ret, { dev with endpoint_halted := false })
      else
        (ret, dev)
    | .ok actual_length =>
      if actual_length ≠ length ∧ is_write then
        (-EIO', dev)
      else
        (actual_length, dev)

/-! ### Character-device read and write (`fp_xiaomi_driver.c` lines 522-595)

The result triple is (return value, device after the call, whether a
bulk transfer was issued to the transport).  `copyOk` stands for the
`copy_to_user` / `copy_from_user` call succeeding. -/

/-- `fp_xiaomi_read` (`fp_xiaomi_driver.c` lines 522-559): `devValid`
models `dev != NULL`, `usb` the outcome of the inner bulk transfer. -/
def fp_xiaomi_read (dev : DriverDevice) (devValid : Bool) (count : Nat)
    (usb : UsbResult) (copyOk : Bool) (now : Nat) :
    Int × DriverDevice × Bool :=
  if ¬devValid ∨ count = 0 then
    (-EINVAL, dev, false)
  else
    let count := min count FP_XIAOMI_BUFFER_SIZE
    if fp_xiaomi_get_state dev ≠ FP_STATE_READY then
      (-ENODEV, dev, false)
    else
      let (ret, dev) := fp_xiaomi_bulk_transfer dev true (count : Int) false usb now
      if ret < 0 then
        (ret, dev, true)
      else if ¬copyOk then
        (-EFAULT, dev, true)
      else
        (ret, dev, true)

/-- `fp_xiaomi_write` (`fp_xiaomi_driver.c` lines 561-595): the
`copy_from_user` happens after the state check and before the transfer. -/
def fp_xiaomi_write (dev : DriverDevice) (devValid : Bool) (count : Nat)
    (usb : UsbResult) (copyOk : Bool) (now : Nat) :
    Int × DriverDevice × Bool :=
  if ¬devValid ∨ count = 0 then
    (-EINVAL, dev, false)
  else
    let count := min count FP_XIAOMI_BUFFER_SIZE
    if fp_xiaomi_get_state dev ≠ FP_STATE_READY then
      (-ENODEV, dev, false)
    else if ¬copyOk then
      (-EFAULT, dev, false)
    else
      let (ret, dev) := fp_xiaomi_bulk_transfer dev true (count : Int) true usb now
      (ret, dev, true)

/-! ### Initialization work (`fp_xiaomi_driver.c` lines 418-458) -/

/-- Per-pass outcomes of the two fallible steps inside the retry loop of
`fp_xiaomi_init_work`: the return values of `fp_xiaomi_load_firmware` and
`fp_xiaomi_get_device_info` on the pass with the given retry index. -/
structure InitOracle where
  firmwareRet : Nat → Int
  devInfoRet : Nat → Int

/-- One pass of the init loop succeeds iff neither step returns a
negative value (matching the two `if (ret < 0) goto retry` checks). -/
def initPassOk (o : InitOracle) (k : Nat) : Bool :=
  !(o.firmwareRet k < 0) && !(o.devInfoRet k < 0)

/-- The retry loop of `fp_xiaomi_init_work` (lines 428-453): `k` is the
current `retry_count` loop variable, `fuel` the remaining iterations
(`FP_XIAOMI_RETRY_COUNT - k`), `clock` gives the `jiffies` value at each
`fp_xiaomi_set_state` call, `trace` accumulates the states set so far.
When the fuel runs out every retry has failed and the state becomes
`FP_STATE_ERROR` (lines 455-457). -/
def initLoop (dev : DriverDevice) (o : InitOracle) (clock : Nat → Nat) :
    Nat → Nat → List Nat → DriverDevice × List Nat
  | _, 0, trace =>
    (fp_xiaomi_set_state dev FP_STATE_ERROR (clock 1), trace ++ [FP_STATE_ERROR])
  | k, fuel + 1, trace =>
    if initPassOk o k then
      (fp_xiaomi_set_state dev FP_STATE_READY (clock 1), trace ++ [FP_STATE_READY])
    else
      initLoop { dev with retry_count := dev.retry_count + 1 } o clock
        (k + 1) fuel trace

/-- `fp_xiaomi_init_work` (`fp_xiaomi_driver.c` lines 418-458): sets the
state to `FP_STATE_INITIALIZING`, then runs the bounded retry loop.
Returns the final device and the ordered list of states set. -/
def fp_xiaomi_init_work (dev : DriverDevice) (o : InitOracle)
    (clock : Nat → Nat) : DriverDevice × List Nat :=
  let dev := fp_xiaomi_set_state dev FP_STATE_INITIALIZING (clock 0)
  initLoop dev o clock 0 FP_XIAOMI_RETRY_COUNT [FP_STATE_INITIALIZING]

/-! ### Recovery engine (`fp_xiaomi_recovery.c`)

The helpers this file calls (`fp_xiaomi_power_off/on`,
`fp_xiaomi_test_communication`, `fp_xiaomi_reset_interface`,
`fp_xiaomi_init_protocol`, `fp_xiaomi_get_device_info(dev, NULL)`,
`fp_xiaomi_initialize`) are declared nowhere in the repository, so their
return values enter as oracles indexed by the attempt number. -/

def FP_RECOVERY_MAX_ATTEMPTS : Nat := 3

/-- Error classes dispatched by `fp_recovery_work_func`; the
`enum fp_error_type` itself is referenced but not declared in the
repository's headers, so the constructors mirror the case labels. -/
inductive FpErrorType where
  | hardwareFailure
  | communication
  | stateCorruption
  | timeout
  | unknown
  deriving Repr, DecidableEq

/-- Per-attempt results of the external calls made by
`fp_hardware_reset_sequence`. -/
structure HwOracle where
  powerOffRet : Nat → Int
  powerOnRet : Nat → Int
  testCommRet : Nat → Int

/-- Per-attempt results of the external calls made by
`fp_communication_recovery`. -/
structure CommOracle where
  resetInterfaceRet : Nat → Int
  initProtocolRet : Nat → Int
  devInfoRet : Nat → Int

/-- Loop body of `fp_hardware_reset_sequence` (`fp_xiaomi_recovery.c`
lines 48-81): `attempt` is the loop variable, `fuel` the remaining
iterations; a non-zero power-off or power-on result continues to the
next attempt, a zero communication self-test ends the sequence with 0;
exhaustion returns `-EIO'` (line 85). -/
def hwResetLoop (o : HwOracle) : Nat → Nat → Int
  | _, 0 => -EIO'
  | attempt, fuel + 1 =>
    if o.powerOffRet attempt ≠ 0 then hwResetLoop o (attempt + 1) fuel
    else if o.powerOnRet attempt ≠ 0 then hwResetLoop o (attempt + 1) fuel
    else if o.testCommRet attempt = 0 then 0
    else hwResetLoop o (attempt + 1) fuel

/-- `fp_hardware_reset_sequence` (`fp_xiaomi_recovery.c` lines 42-86). -/
def fp_hardware_reset_sequence (o : HwOracle) : Int :=
  hwResetLoop o 0 FP_RECOVERY_MAX_ATTEMPTS

/-- Loop body of `fp_communication_recovery` (`fp_xiaomi_recovery.c`
lines 97-128); exhaustion returns `-ECOMM` (line 132). -/
def commRecoveryLoop (o : CommOracle) : Nat → Nat → Int
  | _, 0 => -ECOMM
  | attempt, fuel + 1 =>
    if o.resetInterfaceRet attempt ≠ 0 then commRecoveryLoop o (attempt + 1) fuel
    else if o.initProtocolRet attempt ≠ 0 then commRecoveryLoop o (attempt + 1) fuel
    else if o.devInfoRet attempt = 0 then 0
    else commRecoveryLoop o (attempt + 1) fuel

/-- `fp_communication_recovery` (`fp_xiaomi_recovery.c` lines 91-133). -/
def fp_communication_recovery (o : CommOracle) : Int :=
  commRecoveryLoop o 0 FP_RECOVERY_MAX_ATTEMPTS

/-- Fields of `struct fp_xiaomi_device` that the recovery engine
touches: the lifecycle state, the capture flag and last device error
cleared by `fp_state_recovery`, the permanent-failure flag, and the
recovery-success counter `recovery_count`. -/
structure RecDevice where
  state : Nat
  capture_in_progress : Bool
  last_error_code : Int
  device_failed : Bool
  recovery_count : Nat
  deriving Repr, DecidableEq

/-- `fp_state_recovery` (`fp_xiaomi_recovery.c` lines 138-160): clears
the in-memory device state, then reinitializes; `initializeRet` is the
result of the external `fp_xiaomi_initialize` call. -/
def fp_state_recovery (dev : RecDevice) (initializeRet : Int) :
    Int × RecDevice :=
  let dev := { dev with
    state := FP_STATE_UNINITIALIZED
    capture_in_progress := false
    last_error_code := 0 }
  if initializeRet ≠ 0 then (initializeRet, dev) else (0, dev)

/-- `struct fp_recovery_context` (`fp_xiaomi_recovery.c` lines 27-35):
the attempt counter, the last classified error, and the
mutual-exclusion flag.  The embedded `work_struct`, timer and mutex are
scheduling machinery with no modelled state. -/
structure RecoveryCtx where
  recovery_attempts : Nat
  last_error : FpErrorType
  recovery_in_progress : Bool
  deriving Repr, DecidableEq

/-- Bundle of external-call results a single recovery run may consume. -/
structure RecoveryOracle where
  hw : HwOracle
  comm : CommOracle
  initializeRet : Int

/-- The strategy dispatch of `fp_recovery_work_func`
(`fp_xiaomi_recovery.c` lines 184-210): chooses the repair strategy from
the classified error and returns its result together with the device
(only `fp_state_recovery` mutates the device here). -/
def recoveryStrategyResult (ctx : RecoveryCtx) (dev : RecDevice)
    (o : RecoveryOracle) : Int × RecDevice :=
  match ctx.last_error with
  | .hardwareFailure => (fp_hardware_reset_sequence o.hw, dev)
  | .communication => (fp_communication_recovery o.comm, dev)
  | .stateCorruption => fp_state_recovery dev o.initializeRet
  | .timeout =>
    let ret := fp_communication_recovery o.comm
    if ret ≠ 0 then (fp_hardware_reset_sequence o.hw, dev) else (ret, dev)
  | .unknown => fp_state_recovery dev o.initializeRet

/-- `fp_recovery_work_func` (`fp_xiaomi_recovery.c` lines 165-229): under
the recovery lock, returns immediately if no recovery is marked in
progress; otherwise runs the chosen strategy, then on success resets the
attempt counter and bumps `dev->recovery_count`, and on failure
increments the attempt counter, forcing `FP_STATE_ERROR` and the
`device_failed` flag when the counter reaches the maximum; finally
clears `recovery_in_progress`. -/
def fp_recovery_work_func (ctx : RecoveryCtx) (dev : RecDevice)
    (o : RecoveryOracle) : RecoveryCtx × RecDevice :=
  if ¬ctx.recovery_in_progress then
    (ctx, dev)
  else
    let (ret, dev) := recoveryStrategyResult ctx dev o
    if ret = 0 then
      ({ ctx with recovery_attempts := 0, recovery_in_progress := false },
       { dev with recovery_count := dev.recovery_count + 1 })
    else
      let attempts := ctx.recovery_attempts + 1
      let dev :=
        if attempts ≥ FP_RECOVERY_MAX_ATTEMPTS then
          { dev with state := FP_STATE_ERROR, device_failed := true }
        else dev
      ({ ctx with recovery_attempts := attempts, recovery_in_progress := false },
       dev)

/-- `fp_recovery_timer_callback` (`fp_xiaomi_recovery.c` lines 234-245):
the deadline timer only clears the in-progress flag. -/
def fp_recovery_timer_callback (ctx : RecoveryCtx) : RecoveryCtx :=
  { ctx with recovery_in_progress := false }

/-- `fp_xiaomi_trigger_recovery` (`fp_xiaomi_recovery.c` lines 250-286)
with `g_recovery_ctx` and `dev` both non-NULL (the NULL guard at line
253 is outside the state model): under the recovery lock, returns
`-EBUSY` if a run is already in progress, `-ENODEV` if the attempt
counter has reached the maximum, and otherwise records the error class,
sets the in-progress flag and schedules the work. -/
def fp_xiaomi_trigger_recovery (ctx : RecoveryCtx)
    (error_type : FpErrorType) : Int × RecoveryCtx :=
  if ctx.recovery_in_progress then
    (-EBUSY, ctx)
  else if ctx.recovery_attempts ≥ FP_RECOVERY_MAX_ATTEMPTS then
    (-ENODEV, ctx)
  else
    (0, { ctx with last_error := error_type, recovery_in_progress := true })

/-! ### User-space library (`libfp_xiaomi.c`) -/

/-- Copy loop of `fp_xiaomi_list_templates` (`libfp_xiaomi.c` lines
562-568): walks the driver-reported slot array while fewer than `cap`
(the caller-supplied `*count`) entries have been copied, keeping the
non-zero slots in order. -/
def listTemplatesLoop : List Nat → Nat → List Nat
  | [], _ => []
  | _ :: _, 0 => []
  | slot :: rest, cap + 1 =>
    if slot ≠ 0 then slot :: listTemplatesLoop rest cap
    else listTemplatesLoop rest (cap + 1)

/-- `fp_xiaomi_list_templates` (`libfp_xiaomi.c` lines 541-574):
`initialized` and `ptrsValid` model the parameter guard, `ioctlRet` the
`FP_IOC_LIST_TEMPLATES` ioctl result which fills `driver_list` (a
`uint8_t[FP_XIAOMI_MAX_TEMPLATES]` array), `cap` the caller-supplied
`*count` capacity.  Returns the status, the copied identifiers and the
written-back `*count`. -/
def fp_xiaomi_list_templates (initialized ptrsValid : Bool)
    (ioctlRet : Int) (driver_list : List Nat) (cap : Nat) :
    Int × List Nat × Nat :=
  if ¬initialized ∨ ¬ptrsValid then
    (FP_XIAOMI_ERROR_INVALID_PARAM, [], cap)
  else if ioctlRet < 0 then
    (FP_XIAOMI_ERROR_DEVICE, [], cap)
  else
    let ids := listTemplatesLoop (driver_list.take FP_XIAOMI_MAX_TEMPLATES) cap
    (FP_XIAOMI_SUCCESS, ids, ids.length)

/-- Fields of `struct fp_xiaomi_device_internal` that
`fp_xiaomi_close_device` touches. -/
structure SessionCell where
  initialized : Bool
  event_thread_running : Bool
  fd : Int
  deriving Repr, DecidableEq

/-- Memory holding a session handle: either still allocated with its
cell contents, or freed by `free(dev)`. -/
inductive SessionMem where
  | alloc (cell : SessionCell)
  | freed
  deriving Repr, DecidableEq

/-- Observable outcome of one `fp_xiaomi_close_device` call. -/
structure CloseOutcome where
  ret : Int
  mem : SessionMem
  stoppedThread : Bool
  closedFd : Bool
  deriving Repr, DecidableEq

/-- `fp_xiaomi_close_device` (`libfp_xiaomi.c` lines 158-189): the guard
at line 162 reads `dev->initialized`, which is undefined behaviour when
the handle's memory has been freed — modelled as `none`.  On a live
initialized handle it stops the event thread when running, closes the
file descriptor when open, sets `initialized = false`, destroys the
mutex and frees the structure. -/
def fp_xiaomi_close_device (devNull : Bool) (mem : SessionMem) :
    Option CloseOutcome :=
  if devNull then
    some ⟨FP_XIAOMI_ERROR_INVALID_PARAM, mem, false, false⟩
  else
    match mem with
    | .freed => none
    | .alloc cell =>
      if ¬cell.initialized then
        some ⟨FP_XIAOMI_ERROR_INVALID_PARAM, .alloc cell, false, false⟩
      else
        some ⟨FP_XIAOMI_SUCCESS, .freed, cell.event_thread_running,
              decide (cell.fd ≥ 0)⟩

/-- The `struct fp_enroll_params` fields filled by
`fp_xiaomi_enroll_start` (`libfp_xiaomi.c` lines 336-344). -/
structure EnrollParams where
  template_id : Nat
  quality_threshold : Nat
  max_attempts : Nat
  timeout_ms : Nat
  deriving Repr, DecidableEq

/-- The `struct fp_verify_params` fields filled by `fp_xiaomi_verify`
(`libfp_xiaomi.c` lines 474-477). -/
structure VerifyParams where
  template_id : Nat
  quality_threshold : Nat
  timeout_ms : Nat
  deriving Repr, DecidableEq

/-- The `struct fp_identify_params` fields filled by
`fp_xiaomi_identify` (`libfp_xiaomi.c` lines 508-510). -/
structure IdentifyParams where
  quality_threshold : Nat
  timeout_ms : Nat
  deriving Repr, DecidableEq

/-- `fp_xiaomi_enroll_start` (`libfp_xiaomi.c` lines 322-355): returns
the status and, when the guard passes, the parameter block submitted to
the `FP_IOC_ENROLL_START` ioctl; `timeout_ms ? timeout_ms :
FP_TIMEOUT_DEFAULT` substitutes the default for zero. -/
def fp_xiaomi_enroll_start (initialized : Bool) (template_id : Nat)
    (timeout_ms : Nat) (ioctlRet : Int) : Int × Option EnrollParams :=
  if ¬initialized then
    (FP_XIAOMI_ERROR_INVALID_PARAM, none)
  else
    let params : EnrollParams :=
      { template_id := template_id
        quality_threshold := FP_QUALITY_MEDIUM
        max_attempts := 5
        timeout_ms := if timeout_ms ≠ 0 then timeout_ms else FP_TIMEOUT_DEFAULT }
    if ioctlRet < 0 then (FP_XIAOMI_ERROR_DEVICE, some params)
    else (FP_XIAOMI_SUCCESS, some params)

/-- `fp_xiaomi_verify` (`libfp_xiaomi.c` lines 460-488). -/
def fp_xiaomi_verify (initialized : Bool) (template_id : Nat)
    (timeout_ms : Nat) (ioctlRet : Int) : Int × Option VerifyParams :=
  if ¬initialized then
    (FP_XIAOMI_ERROR_INVALID_PARAM, none)
  else
    let params : VerifyParams :=
      { template_id := template_id
        quality_threshold := FP_QUALITY_MEDIUM
        timeout_ms := if timeout_ms ≠ 0 then timeout_ms else FP_TIMEOUT_DEFAULT }
    if ioctlRet < 0 then (FP_XIAOMI_ERROR_DEVICE, some params)
    else (FP_XIAOMI_SUCCESS, some params)

/-- `fp_xiaomi_identify` (`libfp_xiaomi.c` lines 493-524). -/
def fp_xiaomi_identify (initialized : Bool) (timeout_ms : Nat)
    (ioctlRet : Int) : Int × Option IdentifyParams :=
  if ¬initialized then
    (FP_XIAOMI_ERROR_INVALID_PARAM, none)
  else
    let params : IdentifyParams :=
      { quality_threshold := FP_QUALITY_MEDIUM
        timeout_ms := if timeout_ms ≠ 0 then timeout_ms else FP_TIMEOUT_DEFAULT }
    if ioctlRet < 0 then (FP_XIAOMI_ERROR_DEVICE, some params)
    else (FP_XIAOMI_SUCCESS, some params)

/-! ### Helper lemmas -/

/-- The copy loop of `fp_xiaomi_list_templates` computes the first
`cap` non-zero slots in order. -/
theorem listTemplatesLoop_eq (xs : List Nat) :
    ∀ cap, listTemplatesLoop xs cap = (xs.filter (fun s => s ≠ 0)).take cap := by
  induction xs with
  | nil => intro cap; simp [listTemplatesLoop]
  | cons x xs ih =>
    intro cap
    cases cap with
    | zero => simp [listTemplatesLoop]
    | succ c =>
      by_cases hx : x = 0
      · simp [listTemplatesLoop, hx, ih]
      · simp [listTemplatesLoop, hx, ih]

/-- No repair strategy touches the recovery-success counter
`recovery_count`; only the bookkeeping in `fp_recovery_work_func`
increments it. -/
theorem recoveryStrategyResult_recovery_count (ctx : RecoveryCtx)
    (dev : RecDevice) (o : RecoveryOracle) :
    (recoveryStrategyResult ctx dev o).snd.recovery_count = dev.recovery_count := by
  unfold recoveryStrategyResult fp_state_recovery
  split <;> first
    | rfl
    | (dsimp only; split_ifs <;> rfl)

/-! ### Claim theorems -/

/-- C10: in `fp_xiaomi_enroll_start`, `fp_xiaomi_verify` and
`fp_xiaomi_identify`, a `timeout_ms` of zero is replaced by the default
timeout `FP_TIMEOUT_DEFAULT = 5000` milliseconds in the parameter block
submitted to the device, and any non-zero `timeout_ms` is submitted
unchanged. -/
theorem timeout_default_substitution (id t : Nat) (r : Int) :
    ((fp_xiaomi_enroll_start true id t r).snd.map EnrollParams.timeout_ms
      = some (if t = 0 then FP_TIMEOUT_DEFAULT else t))
    ∧ ((fp_xiaomi_verify true id t r).snd.map VerifyParams.timeout_ms
      = some (if t = 0 then FP_TIMEOUT_DEFAULT else t))
    ∧ ((fp_xiaomi_identify true t r).snd.map IdentifyParams.timeout_ms
      = some (if t = 0 then FP_TIMEOUT_DEFAULT else t)) := by
  refine ⟨?_, ?_, ?_⟩ <;>
    by_cases ht : t = 0 <;>
    by_cases hr : r < 0 <;>
    simp [fp_xiaomi_enroll_start, fp_xiaomi_verify, fp_xiaomi_identify, ht, hr]

/-- C4: a write whose USB transfer succeeds but moves fewer (or more)
bytes than requested makes `fp_xiaomi_bulk_transfer` return `-EIO'`, and
a non-negative return value from a write is always exactly the
requested length — success with a partial count is impossible. -/
theorem bulk_write_partial_is_io_error (dev : DriverDevice)
    (len actual : Int) (now : Nat)
    (hlen : 0 < len) (hstate : dev.state ≠ FP_STATE_DISCONNECTED) :
    (actual ≠ len →
      (fp_xiaomi_bulk_transfer dev true len true (.ok actual) now).fst = -EIO')
    ∧ (0 ≤ (fp_xiaomi_bulk_transfer dev true len true (.ok actual) now).fst →
      (fp_xiaomi_bulk_transfer dev true len true (.ok actual) now).fst = len) := by
  constructor
  · intro hne
    simp [fp_xiaomi_bulk_transfer, fp_xiaomi_get_state, hstate, hne,
      not_le.mpr hlen]
  · intro hpos
    by_cases hne : actual = len
    · subst hne
      simp [fp_xiaomi_bulk_transfer, fp_xiaomi_get_state, hstate,
        not_le.mpr hlen]
    · have hfst : (fp_xiaomi_bulk_transfer dev true len true
          (.ok actual) now).fst = -EIO' := by
        simp [fp_xiaomi_bulk_transfer, fp_xiaomi_get_state, hstate, hne,
          not_le.mpr hlen]
      rw [hfst] at hpos
      norm_num [EIO'] at hpos

/-- Witness for C4 at a concrete input: a 16-byte write where only 8
bytes were transferred. -/
theorem bulk_write_partial_is_io_error_witness :
    (0 < (16 : Int) ∧ (⟨FP_STATE_READY, 0, 0, 0, false⟩ : DriverDevice).state ≠ FP_STATE_DISCONNECTED)
    ∧ (((8 : Int) ≠ 16 →
      (fp_xiaomi_bulk_transfer ⟨FP_STATE_READY, 0, 0, 0, false⟩ true 16 true (.ok 8) 0).fst = -EIO')
    ∧ (0 ≤ (fp_xiaomi_bulk_transfer ⟨FP_STATE_READY, 0, 0, 0, false⟩ true 16 true (.ok 8) 0).fst →
      (fp_xiaomi_bulk_transfer ⟨FP_STATE_READY, 0, 0, 0, false⟩ true 16 true (.ok 8) 0).fst = 16)) :=
  ⟨⟨by decide, by decide⟩,
   bulk_write_partial_is_io_error ⟨FP_STATE_READY, 0, 0, 0, false⟩ 16 8 0
     (by decide) (by decide)⟩

/-- C9 (code bug): the first close of a live handle stops the event
thread, closes the file descriptor and frees the handle's memory, so
the second close of the same handle dereferences freed memory in its
`dev->initialized` guard — undefined behaviour (`none`), not the
idempotent success or well-defined error the spec promises. -/
theorem close_device_double_close_undefined :
    fp_xiaomi_close_device false (.alloc ⟨true, true, 3⟩)
      = some ⟨FP_XIAOMI_SUCCESS, .freed, true, true⟩
    ∧ fp_xiaomi_close_device false .freed = none := by
  decide

/-- C7 (counterexample): with driver slots `[1,2,0,...,0]` and a
caller-supplied capacity of 1, `fp_xiaomi_list_templates` returns `[1]`,
which is not the full list `[1,2]` of non-zero slot values — the claim
that the result contains exactly the non-zero slots fails when the
capacity is smaller than their number. -/
theorem list_templates_truncates_at_capacity :
    (fp_xiaomi_list_templates true true 0 [1, 2, 0, 0, 0, 0, 0, 0, 0, 0] 1).snd.fst
      = [1]
    ∧ List.filter (fun s => s ≠ 0) [1, 2, 0, 0, 0, 0, 0, 0, 0, 0] = [1, 2]
    ∧ (fp_xiaomi_list_templates true true 0 [1, 2, 0, 0, 0, 0, 0, 0, 0, 0] 1).snd.fst
      ≠ List.filter (fun s => s ≠ 0) [1, 2, 0, 0, 0, 0, 0, 0, 0, 0] := by
  decide

/-- C7 (amended): on a successful exchange `fp_xiaomi_list_templates`
returns the first `min(capacity, number of non-zero slots)` non-zero
slot values in order — the capacity-long prefix of the filtered slot
array — and the reported count never exceeds the caller-supplied
capacity nor the maximum template count of 10. -/
theorem list_templates_prefix_of_nonzero_slots (driver_list : List Nat)
    (cap : Nat) (ioctlRet : Int) (hio : 0 ≤ ioctlRet)
    (hlen : driver_list.length = FP_XIAOMI_MAX_TEMPLATES) :
    (fp_xiaomi_list_templates true true ioctlRet driver_list cap).fst
      = FP_XIAOMI_SUCCESS
    ∧ (fp_xiaomi_list_templates true true ioctlRet driver_list cap).snd.fst
      = (driver_list.filter (fun s => s ≠ 0)).take cap
    ∧ (fp_xiaomi_list_templates true true ioctlRet driver_list cap).snd.snd ≤ cap
    ∧ (fp_xiaomi_list_templates true true ioctlRet driver_list cap).snd.snd
      ≤ FP_XIAOMI_MAX_TEMPLATES := by
  have htake : driver_list.take FP_XIAOMI_MAX_TEMPLATES = driver_list := by
    apply List.take_of_length_le
    omega
  have hloop := listTemplatesLoop_eq (driver_list.take FP_XIAOMI_MAX_TEMPLATES) cap
  rw [htake] at hloop
  have hnotlt : ¬ioctlRet < 0 := not_lt.mpr hio
  have hmain : fp_xiaomi_list_templates true true ioctlRet driver_list cap
      = (FP_XIAOMI_SUCCESS, (driver_list.filter (fun s => s ≠ 0)).take cap,
         ((driver_list.filter (fun s => s ≠ 0)).take cap).length) := by
    simp [fp_xiaomi_list_templates, hnotlt, htake, hloop]
  refine ⟨by rw [hmain], by rw [hmain], ?_, ?_⟩
  · rw [hmain]
    simp
  · rw [hmain]
    calc ((driver_list.filter (fun s => s ≠ 0)).take cap).length
        ≤ (driver_list.filter (fun s => s ≠ 0)).length := by
          simp
      _ ≤ driver_list.length := List.length_filter_le _ _
      _ = FP_XIAOMI_MAX_TEMPLATES := hlen

/-- Witness for the amended C7 at a concrete input: ten slots with
three non-zero values and capacity 2. -/
theorem list_templates_prefix_of_nonzero_slots_witness :
    ((0 : Int) ≤ 0 ∧ ([5, 0, 7, 0, 9, 0, 0, 0, 0, 0] : List Nat).length
        = FP_XIAOMI_MAX_TEMPLATES)
    ∧ ((fp_xiaomi_list_templates true true 0 [5, 0, 7, 0, 9, 0, 0, 0, 0, 0] 2).fst
        = FP_XIAOMI_SUCCESS
      ∧ (fp_xiaomi_list_templates true true 0 [5, 0, 7, 0, 9, 0, 0, 0, 0, 0] 2).snd.fst
        = (([5, 0, 7, 0, 9, 0, 0, 0, 0, 0] : List Nat).filter (fun s => s ≠ 0)).take 2
      ∧ (fp_xiaomi_list_templates true true 0 [5, 0, 7, 0, 9, 0, 0, 0, 0, 0] 2).snd.snd ≤ 2
      ∧ (fp_xiaomi_list_templates true true 0 [5, 0, 7, 0, 9, 0, 0, 0, 0, 0] 2).snd.snd
        ≤ FP_XIAOMI_MAX_TEMPLATES) :=
  ⟨⟨by decide, by decide⟩,
   list_templates_prefix_of_nonzero_slots [5, 0, 7, 0, 9, 0, 0, 0, 0, 0] 2 0
     (by decide) (by decide)⟩

/-- C8 (counterexample): a successful 16-byte bulk write performed at
time `now = 99` on a device whose `last_activity` is 0 returns success
(16 bytes) yet leaves `last_activity` at 0 — a successful transfer does
not update the last-activity timestamp. -/
theorem bulk_success_without_activity_update :
    0 ≤ (fp_xiaomi_bulk_transfer ⟨FP_STATE_READY, 0, 0, 0, false⟩ true 16 true
      (.ok 16) 99).fst
    ∧ (fp_xiaomi_bulk_transfer ⟨FP_STATE_READY, 0, 0, 0, false⟩ true 16 true
      (.ok 16) 99).snd.last_activity = 0
    ∧ (fp_xiaomi_bulk_transfer ⟨FP_STATE_READY, 0, 0, 0, false⟩ true 16 true
      (.ok 16) 99).snd.last_activity ≠ 99 := by
  decide

/-- C8 (amended): a bulk transfer whose USB exchange succeeds leaves
the device record — in particular `last_activity` — completely
unchanged; the last-activity timestamp is stamped by
`fp_xiaomi_set_state` on every state transition, which on the transfer
paths happens only for the device-gone transition to `Disconnected`. -/
theorem bulk_success_leaves_device_unchanged (dev : DriverDevice)
    (len actual : Int) (is_write : Bool) (now : Nat)
    (st : Nat) (n : Nat) :
    (fp_xiaomi_bulk_transfer dev true len is_write (.ok actual) now).snd = dev
    ∧ (fp_xiaomi_set_state dev st n).last_activity = n := by
  constructor
  · unfold fp_xiaomi_bulk_transfer
    dsimp only
    split_ifs <;> rfl
  · rfl

/-- C2: triggering recovery while a run is marked in progress returns
`-EBUSY` and leaves the recovery context untouched (no second run is
queued, the in-flight run is not preempted); moreover a trigger call
can only start a run when no run was in progress, so at most one
recovery run is active per device at a time. -/
theorem trigger_recovery_busy_when_in_progress (ctx : RecoveryCtx)
    (e : FpErrorType) (h : ctx.recovery_in_progress = true) :
    (fp_xiaomi_trigger_recovery ctx e).fst = -EBUSY
    ∧ (fp_xiaomi_trigger_recovery ctx e).snd = ctx
    ∧ (∀ ctx2 : RecoveryCtx, ∀ e2 : FpErrorType,
        (fp_xiaomi_trigger_recovery ctx2 e2).fst = 0 →
        ctx2.recovery_in_progress = false) := by
  refine ⟨by simp [fp_xiaomi_trigger_recovery, h], by simp [fp_xiaomi_trigger_recovery, h], ?_⟩
  intro ctx2 e2 h0
  by_cases hp : ctx2.recovery_in_progress
  · exfalso
    simp [fp_xiaomi_trigger_recovery, hp, EBUSY] at h0
  · simpa using hp

/-- Witness for C2 at a concrete context with the in-progress flag
set. -/
theorem trigger_recovery_busy_when_in_progress_witness :
    (⟨1, .timeout, true⟩ : RecoveryCtx).recovery_in_progress = true
    ∧ ((fp_xiaomi_trigger_recovery ⟨1, .timeout, true⟩ .communication).fst = -EBUSY
      ∧ (fp_xiaomi_trigger_recovery ⟨1, .timeout, true⟩ .communication).snd
        = ⟨1, .timeout, true⟩
      ∧ (∀ ctx2 : RecoveryCtx, ∀ e2 : FpErrorType,
          (fp_xiaomi_trigger_recovery ctx2 e2).fst = 0 →
          ctx2.recovery_in_progress = false)) :=
  ⟨rfl, trigger_recovery_busy_when_in_progress ⟨1, .timeout, true⟩ .communication rfl⟩

/-- C3: a session-layer read or write issued while the device state is
not `Ready` (in particular while `Disconnected`) fails with `-ENODEV`
(or `-EINVAL` for the degenerate zero-length request rejected even
earlier), issues no bulk transfer to the transport, and leaves the
device unchanged. -/
theorem read_write_rejected_outside_ready (dev : DriverDevice)
    (count : Nat) (usb : UsbResult) (copyOk : Bool) (now : Nat)
    (h : dev.state ≠ FP_STATE_READY) :
    ((fp_xiaomi_read dev true count usb copyOk now).fst = -ENODEV
      ∨ (fp_xiaomi_read dev true count usb copyOk now).fst = -EINVAL)
    ∧ (fp_xiaomi_read dev true count usb copyOk now).snd.fst = dev
    ∧ (fp_xiaomi_read dev true count usb copyOk now).snd.snd = false
    ∧ ((fp_xiaomi_write dev true count usb copyOk now).fst = -ENODEV
      ∨ (fp_xiaomi_write dev true count usb copyOk now).fst = -EINVAL)
    ∧ (fp_xiaomi_write dev true count usb copyOk now).snd.fst = dev
    ∧ (fp_xiaomi_write dev true count usb copyOk now).snd.snd = false := by
  by_cases hc : count = 0 <;>
    simp [fp_xiaomi_read, fp_xiaomi_write, fp_xiaomi_get_state, hc, h]

/-- Witness for C3: a 64-byte read and write against a disconnected
device. -/
theorem read_write_rejected_outside_ready_witness :
    (⟨FP_STATE_DISCONNECTED, 0, 0, 0, false⟩ : DriverDevice).state ≠ FP_STATE_READY
    ∧ (((fp_xiaomi_read ⟨FP_STATE_DISCONNECTED, 0, 0, 0, false⟩ true 64 (.ok 64) true 0).fst = -ENODEV
        ∨ (fp_xiaomi_read ⟨FP_STATE_DISCONNECTED, 0, 0, 0, false⟩ true 64 (.ok 64) true 0).fst = -EINVAL)
      ∧ (fp_xiaomi_read ⟨FP_STATE_DISCONNECTED, 0, 0, 0, false⟩ true 64 (.ok 64) true 0).snd.fst
        = ⟨FP_STATE_DISCONNECTED, 0, 0, 0, false⟩
      ∧ (fp_xiaomi_read ⟨FP_STATE_DISCONNECTED, 0, 0, 0, false⟩ true 64 (.ok 64) true 0).snd.snd = false
      ∧ ((fp_xiaomi_write ⟨FP_STATE_DISCONNECTED, 0, 0, 0, false⟩ true 64 (.ok 64) true 0).fst = -ENODEV
        ∨ (fp_xiaomi_write ⟨FP_STATE_DISCONNECTED, 0, 0, 0, false⟩ true 64 (.ok 64) true 0).fst = -EINVAL)
      ∧ (fp_xiaomi_write ⟨FP_STATE_DISCONNECTED, 0, 0, 0, false⟩ true 64 (.ok 64) true 0).snd.fst
        = ⟨FP_STATE_DISCONNECTED, 0, 0, 0, false⟩
      ∧ (fp_xiaomi_write ⟨FP_STATE_DISCONNECTED, 0, 0, 0, false⟩ true 64 (.ok 64) true 0).snd.snd = false) :=
  ⟨by decide,
   read_write_rejected_outside_ready ⟨FP_STATE_DISCONNECTED, 0, 0, 0, false⟩ 64
     (.ok 64) true 0 (by decide)⟩

/-- C5: among the failing bulk-transfer outcomes only the device-gone
signal (`-ENODEV`) changes the device state, forcing `Disconnected`; a
timeout returns `-ETIMEDOUT` and mutates nothing but the error counter;
an endpoint stall (`-EPIPE`) clears the halt and returns with the state
and last-activity untouched. -/
theorem bulk_transfer_error_state_effects (dev : DriverDevice) (len : Int)
    (is_write : Bool) (now : Nat) (ret : Int)
    (hlen : 0 < len) (hstate : dev.state ≠ FP_STATE_DISCONNECTED) :
    ((fp_xiaomi_bulk_transfer dev true len is_write (.err (-ETIMEDOUT)) now).fst
        = -ETIMEDOUT
      ∧ (fp_xiaomi_bulk_transfer dev true len is_write (.err (-ETIMEDOUT)) now).snd
        = { dev with error_count := dev.error_count + 1 })
    ∧ (fp_xiaomi_bulk_transfer dev true len is_write (.err (-ENODEV)) now).snd.state
        = FP_STATE_DISCONNECTED
    ∧ ((fp_xiaomi_bulk_transfer dev true len is_write (.err (-EPIPE)) now).fst
        = -EPIPE
      ∧ (fp_xiaomi_bulk_transfer dev true len is_write (.err (-EPIPE)) now).snd.state
        = dev.state
      ∧ (fp_xiaomi_bulk_transfer dev true len is_write (.err (-EPIPE)) now).snd.endpoint_halted
        = false
      ∧ (fp_xiaomi_bulk_transfer dev true len is_write (.err (-EPIPE)) now).snd.last_activity
        = dev.last_activity)
    ∧ (ret ≠ -ENODEV →
      (fp_xiaomi_bulk_transfer dev true len is_write (.err ret) now).snd.state
        = dev.state
      ∧ (fp_xiaomi_bulk_transfer dev true len is_write (.err ret) now).snd.last_activity
        = dev.last_activity) := by
  have hguard : ¬(¬true = true ∨ len ≤ 0) := by
    simp [not_le.mpr hlen]
  refine ⟨⟨?_, ?_⟩, ?_, ⟨?_, ?_, ?_, ?_⟩, ?_⟩ <;>
    try simp [fp_xiaomi_bulk_transfer, fp_xiaomi_get_state, hstate,
      not_le.mpr hlen, fp_xiaomi_set_state, ETIMEDOUT, ENODEV, EPIPE]
  intro hne
  try simp only [ENODEV] at hne
  split_ifs <;> simp_all

/-- Witness for C5 on a ready device with a 16-byte request. -/
theorem bulk_transfer_error_state_effects_witness :
    (0 < (16 : Int)
      ∧ (⟨FP_STATE_READY, 7, 0, 0, true⟩ : DriverDevice).state ≠ FP_STATE_DISCONNECTED)
    ∧ (((fp_xiaomi_bulk_transfer ⟨FP_STATE_READY, 7, 0, 0, true⟩ true 16 true (.err (-ETIMEDOUT)) 42).fst
        = -ETIMEDOUT
      ∧ (fp_xiaomi_bulk_transfer ⟨FP_STATE_READY, 7, 0, 0, true⟩ true 16 true (.err (-ETIMEDOUT)) 42).snd
        = { (⟨FP_STATE_READY, 7, 0, 0, true⟩ : DriverDevice) with
            error_count := (⟨FP_STATE_READY, 7, 0, 0, true⟩ : DriverDevice).error_count + 1 })
    ∧ (fp_xiaomi_bulk_transfer ⟨FP_STATE_READY, 7, 0, 0, true⟩ true 16 true (.err (-ENODEV)) 42).snd.state
        = FP_STATE_DISCONNECTED
    ∧ ((fp_xiaomi_bulk_transfer ⟨FP_STATE_READY, 7, 0, 0, true⟩ true 16 true (.err (-EPIPE)) 42).fst
        = -EPIPE
      ∧ (fp_xiaomi_bulk_transfer ⟨FP_STATE_READY, 7, 0, 0, true⟩ true 16 true (.err (-EPIPE)) 42).snd.state
        = (⟨FP_STATE_READY, 7, 0, 0, true⟩ : DriverDevice).state
      ∧ (fp_xiaomi_bulk_transfer ⟨FP_STATE_READY, 7, 0, 0, true⟩ true 16 true (.err (-EPIPE)) 42).snd.endpoint_halted
        = false
      ∧ (fp_xiaomi_bulk_transfer ⟨FP_STATE_READY, 7, 0, 0, true⟩ true 16 true (.err (-EPIPE)) 42).snd.last_activity
        = (⟨FP_STATE_READY, 7, 0, 0, true⟩ : DriverDevice).last_activity)
    ∧ ((-5 : Int) ≠ -ENODEV →
      (fp_xiaomi_bulk_transfer ⟨FP_STATE_READY, 7, 0, 0, true⟩ true 16 true (.err (-5)) 42).snd.state
        = (⟨FP_STATE_READY, 7, 0, 0, true⟩ : DriverDevice).state
      ∧ (fp_xiaomi_bulk_transfer ⟨FP_STATE_READY, 7, 0, 0, true⟩ true 16 true (.err (-5)) 42).snd.last_activity
        = (⟨FP_STATE_READY, 7, 0, 0, true⟩ : DriverDevice).last_activity)) :=
  ⟨⟨by decide, by decide⟩,
   bulk_transfer_error_state_effects ⟨FP_STATE_READY, 7, 0, 0, true⟩ 16 true 42
     (-5) (by decide) (by decide)⟩

/-- C1: for a completed recovery run (the work function entered with
the in-progress flag set): when the chosen strategy fails the attempt
counter increments, and on reaching the maximum of 3 the device state
becomes `FP_STATE_ERROR` and `device_failed` is set; when the strategy
succeeds the attempt counter resets to zero and the recovery-success
counter `recovery_count` increments; and once the attempt counter has
reached the maximum every call to `fp_xiaomi_trigger_recovery` is
rejected with a non-zero code and leaves the context unchanged, so no
new run starts until the counter is cleared externally (nothing in the
recovery module clears it except a successful run or module
re-initialization). -/
theorem recovery_run_accounting (ctx : RecoveryCtx) (dev : RecDevice)
    (o : RecoveryOracle) (h : ctx.recovery_in_progress = true) :
    ((recoveryStrategyResult ctx dev o).fst ≠ 0 →
      (fp_recovery_work_func ctx dev o).fst.recovery_attempts
        = ctx.recovery_attempts + 1
      ∧ (FP_RECOVERY_MAX_ATTEMPTS ≤ ctx.recovery_attempts + 1 →
          (fp_recovery_work_func ctx dev o).snd.state = FP_STATE_ERROR
          ∧ (fp_recovery_work_func ctx dev o).snd.device_failed = true))
    ∧ ((recoveryStrategyResult ctx dev o).fst = 0 →
      (fp_recovery_work_func ctx dev o).fst.recovery_attempts = 0
      ∧ (fp_recovery_work_func ctx dev o).snd.recovery_count
        = dev.recovery_count + 1)
    ∧ (∀ ctx2 : RecoveryCtx, ∀ e : FpErrorType,
        FP_RECOVERY_MAX_ATTEMPTS ≤ ctx2.recovery_attempts →
        (fp_xiaomi_trigger_recovery ctx2 e).fst ≠ 0
        ∧ (fp_xiaomi_trigger_recovery ctx2 e).snd = ctx2) := by
  have hcount := recoveryStrategyResult_recovery_count ctx dev o
  rcases hsr : recoveryStrategyResult ctx dev o with ⟨ret, dev2⟩
  rw [hsr] at hcount
  simp only at hcount
  refine ⟨?_, ?_, ?_⟩
  · intro hne
    simp only at hne
    have hw : fp_recovery_work_func ctx dev o =
        ({ ctx with
            recovery_attempts := ctx.recovery_attempts + 1
            recovery_in_progress := false },
         if FP_RECOVERY_MAX_ATTEMPTS ≤ ctx.recovery_attempts + 1 then
           { dev2 with state := FP_STATE_ERROR, device_failed := true }
         else dev2) := by
      simp [fp_recovery_work_func, h, hsr, hne]
    rw [hw]
    exact ⟨rfl, fun hmax => by simp [hmax]⟩
  · intro heq
    simp only at heq
    have hw : fp_recovery_work_func ctx dev o =
        ({ ctx with recovery_attempts := 0, recovery_in_progress := false },
         { dev2 with recovery_count := dev2.recovery_count + 1 }) := by
      simp [fp_recovery_work_func, h, hsr, heq]
    rw [hw]
    exact ⟨rfl, by simp [hcount]⟩
  · intro ctx2 e hmax
    by_cases hp : ctx2.recovery_in_progress
    · constructor
      · simp [fp_xiaomi_trigger_recovery, hp, EBUSY]
      · simp [fp_xiaomi_trigger_recovery, hp]
    · constructor
      · simp [fp_xiaomi_trigger_recovery, hp, hmax, ENODEV]
      · simp [fp_xiaomi_trigger_recovery, hp, hmax]

/-- Witness for C1: a recovery run entered with the in-progress flag
set, the attempt counter at 2, a hardware-failure classification and a
permanently failing power-off, so the strategy fails and the counter
reaches the maximum. -/
theorem recovery_run_accounting_witness :
    (⟨2, .hardwareFailure, true⟩ : RecoveryCtx).recovery_in_progress = true
    ∧ (((recoveryStrategyResult ⟨2, .hardwareFailure, true⟩ ⟨2, false, 0, false, 0⟩
          ⟨⟨fun _ => 1, fun _ => 1, fun _ => 1⟩, ⟨fun _ => 1, fun _ => 1, fun _ => 1⟩, 0⟩).fst ≠ 0 →
        (fp_recovery_work_func ⟨2, .hardwareFailure, true⟩ ⟨2, false, 0, false, 0⟩
          ⟨⟨fun _ => 1, fun _ => 1, fun _ => 1⟩, ⟨fun _ => 1, fun _ => 1, fun _ => 1⟩, 0⟩).fst.recovery_attempts
          = 2 + 1
        ∧ (FP_RECOVERY_MAX_ATTEMPTS ≤ 2 + 1 →
            (fp_recovery_work_func ⟨2, .hardwareFailure, true⟩ ⟨2, false, 0, false, 0⟩
              ⟨⟨fun _ => 1, fun _ => 1, fun _ => 1⟩, ⟨fun _ => 1, fun _ => 1, fun _ => 1⟩, 0⟩).snd.state
              = FP_STATE_ERROR
            ∧ (fp_recovery_work_func ⟨2, .hardwareFailure, true⟩ ⟨2, false, 0, false, 0⟩
              ⟨⟨fun _ => 1, fun _ => 1, fun _ => 1⟩, ⟨fun _ => 1, fun _ => 1, fun _ => 1⟩, 0⟩).snd.device_failed
              = true))
      ∧ ((recoveryStrategyResult ⟨2, .hardwareFailure, true⟩ ⟨2, false, 0, false, 0⟩
          ⟨⟨fun _ => 1, fun _ => 1, fun _ => 1⟩, ⟨fun _ => 1, fun _ => 1, fun _ => 1⟩, 0⟩).fst = 0 →
        (fp_recovery_work_func ⟨2, .hardwareFailure, true⟩ ⟨2, false, 0, false, 0⟩
          ⟨⟨fun _ => 1, fun _ => 1, fun _ => 1⟩, ⟨fun _ => 1, fun _ => 1, fun _ => 1⟩, 0⟩).fst.recovery_attempts = 0
        ∧ (fp_recovery_work_func ⟨2, .hardwareFailure, true⟩ ⟨2, false, 0, false, 0⟩
          ⟨⟨fun _ => 1, fun _ => 1, fun _ => 1⟩, ⟨fun _ => 1, fun _ => 1, fun _ => 1⟩, 0⟩).snd.recovery_count
          = (⟨2, false, 0, false, 0⟩ : RecDevice).recovery_count + 1)
      ∧ (∀ ctx2 : RecoveryCtx, ∀ e : FpErrorType,
          FP_RECOVERY_MAX_ATTEMPTS ≤ ctx2.recovery_attempts →
          (fp_xiaomi_trigger_recovery ctx2 e).fst ≠ 0
          ∧ (fp_xiaomi_trigger_recovery ctx2 e).snd = ctx2)) :=
  ⟨rfl,
   recovery_run_accounting ⟨2, .hardwareFailure, true⟩ ⟨2, false, 0, false, 0⟩
     ⟨⟨fun _ => 1, fun _ => 1, fun _ => 1⟩, ⟨fun _ => 1, fun _ => 1, fun _ => 1⟩, 0⟩ rfl⟩

/-- C6: the initialization work first sets `Initializing`; if the first
pass succeeds the state sequence is exactly `Initializing` then `Ready`;
if the first succeeding pass comes after some failures (within the 3
retries) the final state is still `Ready`; and if every one of the 3
passes fails the final state is `Error`. -/
theorem init_work_state_outcomes (dev : DriverDevice) (o : InitOracle)
    (clock : Nat → Nat) :
    (initPassOk o 0 = true →
      (fp_xiaomi_init_work dev o clock).snd
        = [FP_STATE_INITIALIZING, FP_STATE_READY]
      ∧ (fp_xiaomi_init_work dev o clock).fst.state = FP_STATE_READY)
    ∧ ((∀ k, k < FP_XIAOMI_RETRY_COUNT → initPassOk o k = false) →
      (fp_xiaomi_init_work dev o clock).fst.state = FP_STATE_ERROR
      ∧ (fp_xiaomi_init_work dev o clock).snd
        = [FP_STATE_INITIALIZING, FP_STATE_ERROR])
    ∧ (∀ k, k < FP_XIAOMI_RETRY_COUNT → initPassOk o k = true →
        (∀ j, j < k → initPassOk o j = false) →
      (fp_xiaomi_init_work dev o clock).fst.state = FP_STATE_READY) := by
  have h3 : FP_XIAOMI_RETRY_COUNT = 2 + 1 := rfl
  refine ⟨?_, ?_, ?_⟩
  · intro h0
    simp [fp_xiaomi_init_work, h3, initLoop, h0, fp_xiaomi_set_state]
  · intro hall
    have h0 := hall 0 (by simp [FP_XIAOMI_RETRY_COUNT])
    have h1 := hall 1 (by simp [FP_XIAOMI_RETRY_COUNT])
    have h2 := hall 2 (by simp [FP_XIAOMI_RETRY_COUNT])
    simp [fp_xiaomi_init_work, h3, initLoop, h0, h1, h2, fp_xiaomi_set_state]
  · intro k hk hkOk hprev
    rw [FP_XIAOMI_RETRY_COUNT] at hk
    interval_cases k
    · simp [fp_xiaomi_init_work, h3, initLoop, hkOk, fp_xiaomi_set_state]
    · have h0 := hprev 0 (by omega)
      simp [fp_xiaomi_init_work, h3, initLoop, h0, hkOk, fp_xiaomi_set_state]
    · have h0 := hprev 0 (by omega)
      have h1 := hprev 1 (by omega)
      simp [fp_xiaomi_init_work, h3, initLoop, h0, h1, hkOk, fp_xiaomi_set_state]

/-- Witness for C6: an oracle whose first pass fails (device-info
retrieval returns a negative code) and whose second pass succeeds; also
exercises the first-pass-success conjunct with the trivially successful
oracle via the third conjunct at k = 1. -/
theorem init_work_state_outcomes_witness :
    (initPassOk ⟨fun _ => 0, fun _ => 0⟩ 0 = true
      ∧ ((fp_xiaomi_init_work ⟨FP_STATE_DISCONNECTED, 0, 0, 0, false⟩
          ⟨fun _ => 0, fun _ => 0⟩ (fun _ => 0)).snd
        = [FP_STATE_INITIALIZING, FP_STATE_READY]
      ∧ (fp_xiaomi_init_work ⟨FP_STATE_DISCONNECTED, 0, 0, 0, false⟩
          ⟨fun _ => 0, fun _ => 0⟩ (fun _ => 0)).fst.state = FP_STATE_READY))
    ∧ ((∀ k, k < FP_XIAOMI_RETRY_COUNT →
          initPassOk ⟨fun _ => 0, fun _ => -1⟩ k = false)
      ∧ (fp_xiaomi_init_work ⟨FP_STATE_DISCONNECTED, 0, 0, 0, false⟩
          ⟨fun _ => 0, fun _ => -1⟩ (fun _ => 0)).fst.state = FP_STATE_ERROR
      ∧ (fp_xiaomi_init_work ⟨FP_STATE_DISCONNECTED, 0, 0, 0, false⟩
          ⟨fun _ => 0, fun _ => -1⟩ (fun _ => 0)).snd
        = [FP_STATE_INITIALIZING, FP_STATE_ERROR]) :=
  ⟨⟨rfl,
    (init_work_state_outcomes ⟨FP_STATE_DISCONNECTED, 0, 0, 0, false⟩
      ⟨fun _ => 0, fun _ => 0⟩ (fun _ => 0)).1 rfl⟩,
   ⟨fun _ _ => rfl,
    (init_work_state_outcomes ⟨FP_STATE_DISCONNECTED, 0, 0, 0, false⟩
      ⟨fun _ => 0, fun _ => -1⟩ (fun _ => 0)).2.1 (fun _ _ => rfl)⟩⟩

end FpXiaomi
